import Mathlib

/-!
Verification development for the `signpost` Rust crate (a wrapper around
Apple's os_signpost tracing API).

The embedding models the crate's observable behaviour towards the native
os-tracing facility.  Native calls (handle creation, enabled queries,
signpost emissions, id generation) are recorded in an explicit trace, and
heap allocations performed on the Rust side (`CString::new`) are counted,
so that claims about "no native call" / "no allocation" are statable.

The native facility itself is external to the crate; its observable inputs
(whether a real tracing consumer is attached, i.e. the result of
`os_signpost_enabled`) are supplied through an `Env` value.
-/

namespace Signpost

/-- Rust `SignpostType` (lib.rs:169-176): the kind of a signpost emission. -/
inductive SignpostType where
  | event
  | intervalBegin
  | intervalEnd
deriving DecidableEq, Repr

/-- One native signpost emission as passed to
`_os_signpost_emit_with_name_impl`: the 64-bit id, the name string, the
optional message string, and the kind.  Ids are modelled as `Nat` values
below `2^64`. -/
structure Emission where
  id : Nat
  name : String
  message : Option String
  kind : SignpostType
deriving DecidableEq, Repr

/-- A call across the FFI boundary into the native tracing facility. -/
inductive NativeCall where
  | osLogCreate (subsystem : String) (category : String)
  | osSignpostEnabled
  | osSignpostEmit (e : Emission)
  | osSignpostIdGenerate
  | osSignpostIdMakeWithPointer (addr : Nat)
deriving DecidableEq, Repr

/-- The external tracing facility's state as observed by the crate:
whether `os_signpost_enabled` reports an attached, recording consumer. -/
structure Env where
  signpostEnabled : Bool
deriving DecidableEq, Repr

/-- Rust `OsLog` (lib.rs:200-205): subsystem string, category, and the
lazily-created native handle.  The `AtomicPtr` handle together with the
`std::sync::Once` cell is modelled by the single flag `handleInit`:
whether the one-time `os_log_create` call has already happened. -/
structure OsLog where
  subsystem : String
  category : String
  handleInit : Bool
deriving DecidableEq, Repr

/-- Rust `OsLog::new` (lib.rs:209-216): stores the strings and a null
handle; never touches the native facility. -/
def OsLog.new (subsystem : String) (category : String) : OsLog :=
  { subsystem := subsystem, category := category, handleInit := false }

/-- The effect of one crate operation on an `OsLog`: the updated logger
state, the native calls it issued in order, and the number of Rust-side
string allocations (`CString::new`) it performed. -/
structure LogEffect where
  log : OsLog
  calls : List NativeCall
  allocs : Nat
deriving DecidableEq, Repr

/-- Rust `OsLog::get` (lib.rs:310-319): on first use, allocates the
subsystem C string and calls `os_log_create` exactly once (guarded by the
`Once` cell); afterwards merely loads the stored handle. -/
def OsLog.get (log : OsLog) : LogEffect :=
  if log.handleInit then
    { log := log, calls := [], allocs := 0 }
  else
    { log := { log with handleInit := true },
      calls := [NativeCall.osLogCreate log.subsystem log.category],
      allocs := 1 }

/-- Rust `OsLog::enabled` (lib.rs:219-222): realizes the handle via
`get`, then queries the native `os_signpost_enabled`.  The boolean
result comes from the external facility (`Env`). -/
def OsLog.enabledRun (env : Env) (log : OsLog) : Bool × LogEffect :=
  let e := OsLog.get log
  (env.signpostEnabled,
   { log := e.log, calls := e.calls ++ [NativeCall.osSignpostEnabled],
     allocs := e.allocs })

/-- Rust `OsLog::emit` (lib.rs:260-308): if `enabled()` is false, returns
immediately; otherwise allocates the name C string (and the message C
string when present), calls `get` again for the handle, and issues exactly
one native `_os_signpost_emit_with_name_impl` call. -/
def OsLog.emit (env : Env) (log : OsLog) (id : Nat) (name : String)
    (message : Option String) (ty : SignpostType) : LogEffect :=
  let (en, e1) := OsLog.enabledRun env log
  if !en then
    { log := e1.log, calls := e1.calls, allocs := e1.allocs }
  else
    let strAllocs := 1 + (if message.isSome then 1 else 0)
    let e2 := OsLog.get e1.log
    { log := e2.log,
      calls := e1.calls ++ e2.calls ++
        [NativeCall.osSignpostEmit
          { id := id, name := name, message := message, kind := ty }],
      allocs := e1.allocs + strAllocs + e2.allocs }

/-- The emissions contained in a native-call trace, in order. -/
def emissionsOf (calls : List NativeCall) : List Emission :=
  calls.filterMap fun c =>
    match c with
    | NativeCall.osSignpostEmit e => some e
    | _ => none

/-- Rust `SignpostError` (lib.rs:76-85). -/
inductive SignpostError where
  | notConfigured
  | invalidScope
  | invalidId
deriving DecidableEq, Repr

/-- Rust `SignpostId` (lib.rs:105): a 64-bit opaque correlation token,
modelled as a `Nat` (callers below supply values `< 2^64`). -/
structure SignpostId where
  val : Nat
deriving DecidableEq, Repr

/-- Rust `SignpostId::from_raw` (lib.rs:155-157): wraps the raw 64-bit
value directly, with no check of any kind. -/
def SignpostId.from_raw (id : Nat) : SignpostId :=
  { val := id }

/-- Rust `SignpostId::raw` (lib.rs:162-164): the raw 64-bit value. -/
def SignpostId.raw (s : SignpostId) : Nat :=
  s.val

/-- The native sentinel `OS_SIGNPOST_ID_INVALID` (all 64 bits set). -/
def osSignpostIdInvalid : Nat := 2 ^ 64 - 1

/-- The matching scope a native log handle can be configured with
(spec glossary: thread-, process- or system-wide begin/end matching).
The crate's `OsLog` stores no scope; the scope is a property of the
native handle, so it lives in the model of the native facility. -/
inductive MatchingScope where
  | thread
  | process
  | system
deriving DecidableEq, Repr

/-- Modelled from the spec: the native `os_signpost_id_make_with_pointer`
call, which is external to the crate (spec section 6:
`derive-id-from-address(handle, address) -> u64`; spec section 4.1:
addresses are not portable across processes, so a system-wide/cross-process
matching scope is rejected, and otherwise the address is deterministically
encoded with the process-relative address-layout-randomization slide
removed).  For a system-scoped handle the native call yields the reserved
invalid-id sentinel; otherwise it subtracts the per-process slide from the
address, with 64-bit wraparound. -/
def nativeMakeWithPointer (scope : MatchingScope) (slide : Nat) (addr : Nat) : Nat :=
  match scope with
  | MatchingScope.system => osSignpostIdInvalid
  | _ => (2 ^ 64 + addr - slide % 2 ^ 64) % 2 ^ 64

/-- Rust `SignpostId::from_pointer` (lib.rs:138-141): realizes the log
handle via `get`, passes the pointer to the native
`os_signpost_id_make_with_pointer` call, and wraps whatever comes back in
`Ok`.  `scope` and `slide` describe the native handle's matching scope and
the process's address-layout-randomization slide (see
`nativeMakeWithPointer`). -/
def SignpostId.from_pointer (scope : MatchingScope) (slide : Nat) (log : OsLog)
    (addr : Nat) : Except SignpostError SignpostId × LogEffect :=
  let e := OsLog.get log
  (Except.ok { val := nativeMakeWithPointer scope slide addr },
   { log := e.log,
     calls := e.calls ++ [NativeCall.osSignpostIdMakeWithPointer addr],
     allocs := e.allocs })

/-- Rust `SignpostInterval` (lib.rs:327-332): the scope guard's owned
state (the borrowed logger is passed explicitly to each operation). -/
structure SignpostInterval where
  id : Nat
  name : String
  message : Option String
deriving DecidableEq, Repr

/-- Rust `SignpostInterval::new` (lib.rs:335-348): stores id, name and
optional message; if `log.enabled()`, immediately emits the
interval-begin via `start_interval` (lib.rs:350-357), which performs its
own enabled check inside `emit`. -/
def SignpostInterval.new (env : Env) (log : OsLog) (id : Nat) (name : String)
    (message : Option String) : SignpostInterval × LogEffect :=
  let iv : SignpostInterval := { id := id, name := name, message := message }
  let (en, e1) := OsLog.enabledRun env log
  if en then
    let e2 := OsLog.emit env e1.log id name message SignpostType.intervalBegin
    (iv, { log := e2.log, calls := e1.calls ++ e2.calls,
           allocs := e1.allocs + e2.allocs })
  else
    (iv, e1)

/-- Rust `impl Drop for SignpostInterval` (lib.rs:366-370) together with
`end_internal` (lib.rs:359-363): unconditionally attempts one
interval-end emission carrying no message; the attempt is gated only by
`emit`'s own enabled check at destruction time. -/
def SignpostInterval.drop (env : Env) (log : OsLog) (iv : SignpostInterval) :
    LogEffect :=
  OsLog.emit env log iv.id iv.name none SignpostType.intervalEnd

/-- The full native-call trace of one guard lifecycle: construction under
`envNew`, destruction under `envDrop` (the external facility's enabled
state may change in between). -/
def intervalScenario (envNew envDrop : Env) (log : OsLog) (id : Nat)
    (name : String) (message : Option String) : List NativeCall :=
  let (iv, e1) := SignpostInterval.new envNew log id name message
  let e2 := SignpostInterval.drop envDrop e1.log iv
  e1.calls ++ e2.calls

/-- Outcome of a Rust computation that may panic (process-fatal). -/
inductive PanicOr (α : Type) where
  | panicked (msg : String)
  | ok (a : α)
deriving DecidableEq, Repr

/-- The process-wide one-time cells of lib.rs: `GLOBAL_CONFIG`
(lib.rs:372, an `OnceLock<(String, CStr)>`) and the `GLOBAL_LOGGER`
`OnceLock<OsLog>` inside `global_logger` (lib.rs:400). -/
structure GlobalState where
  config : Option (String × String)
  logger : Option OsLog
deriving DecidableEq, Repr

/-- The process state at startup: neither cell initialized. -/
def GlobalState.initial : GlobalState :=
  { config := none, logger := none }

/-- Rust `Signpost::configure` (lib.rs:382-393): `OnceLock::set` stores
the pair only when the cell is empty; on a second call `set` returns
`Err` (leaving the first value intact) and the `.expect` panics with
"Signpost already configured". -/
def configure (g : GlobalState) (subsystem : String)
    (category : String) : PanicOr (String × String) × GlobalState :=
  match g.config with
  | none =>
    (PanicOr.ok (subsystem, category),
     { g with config := some (subsystem, category) })
  | some _ => (PanicOr.panicked "Signpost already configured", g)

/-- Rust `global_logger` (lib.rs:398-409): `get_or_init` on the logger
cell; on first access builds the `OsLog` from the stored config, and
panics (with the message written in the source, lib.rs:406) when the
config was never set. -/
def global_logger (g : GlobalState) : PanicOr OsLog × GlobalState :=
  match g.logger with
  | some l => (PanicOr.ok l, g)
  | none =>
    match g.config with
    | some (s, c) =>
      (PanicOr.ok (OsLog.new s c), { g with logger := some (OsLog.new s c) })
    | none => (PanicOr.panicked "Double Signpost config initialization", g)

/-- Rust `ActiveInterval` (tracing_subscriber.rs:14-17): the signpost id
and derived name stored per open external span. -/
structure ActiveInterval where
  id : Nat
  name : String
deriving DecidableEq, Repr

/-- The subscriber's `DashMap<Id, ActiveInterval>`
(tracing_subscriber.rs:21), modelled as an association list keyed by the
external span id. -/
def IntervalMap : Type := List (Nat × ActiveInterval)

/-- `DashMap::remove` on the association list: returns the removed value
(if the key was present) and the remaining map. -/
def removeEntry (m : List (Nat × ActiveInterval)) (k : Nat) :
    Option ActiveInterval × List (Nat × ActiveInterval) :=
  match m with
  | [] => (none, [])
  | (k', v) :: rest =>
    if k' = k then (some v, rest)
    else
      let r := removeEntry rest k
      (r.1, (k', v) :: r.2)

/-- Rust `TracingSubscriber::on_close` (tracing_subscriber.rs:109-119):
obtains the global logger (passed here as `log`), returns early when it
is not enabled; otherwise removes the map entry for the span id and, only
when one was found, emits the interval-end with the stored id and name
and no message.  A missing entry is silently skipped. -/
def TracingSubscriber.on_close (env : Env) (log : OsLog)
    (m : List (Nat × ActiveInterval)) (spanId : Nat) :
    List (Nat × ActiveInterval) × LogEffect :=
  let (en, e1) := OsLog.enabledRun env log
  if !en then
    (m, e1)
  else
    match removeEntry m spanId with
    | (none, m') => (m', e1)
    | (some iv, m') =>
      let e2 := OsLog.emit env e1.log iv.id iv.name none SignpostType.intervalEnd
      (m', { log := e2.log, calls := e1.calls ++ e2.calls,
             allocs := e1.allocs + e2.allocs })

/-! ## Helper lemmas -/

/-- Removing a key that no entry of the map carries finds nothing and
leaves the map unchanged. -/
theorem removeEntry_of_not_mem (m : List (Nat × ActiveInterval)) (k : Nat)
    (h : ∀ p ∈ m, p.1 ≠ k) : removeEntry m k = (none, m) := by
  induction m with
  | nil => rfl
  | cons p rest ih =>
    have hp : p.1 ≠ k := h p (List.mem_cons_self p rest)
    have hrest : ∀ q ∈ rest, q.1 ≠ k := fun q hq => h q (List.mem_cons_of_mem p hq)
    simp [removeEntry, hp, ih hrest]

/-! ## Claims -/

/-- C1, counterexample: against a system-scoped logger, `from_pointer`
at a concrete address returns `Ok` (wrapping the native invalid-id
sentinel), not the `InvalidScope` error the claim requires. -/
theorem C1_from_pointer_counterexample :
    (SignpostId.from_pointer MatchingScope.system 0 (OsLog.new "s" "c") 42).1
        = Except.ok { val := osSignpostIdInvalid } ∧
      (SignpostId.from_pointer MatchingScope.system 0 (OsLog.new "s" "c") 42).1
        ≠ Except.error SignpostError.invalidScope := by
  refine ⟨rfl, fun h => ?_⟩
  exact Except.noConfusion h

/-- C1, amended: `SignpostId::from_pointer` never returns an error.  For
every matching scope (system-wide included), every slide, every logger
and every address it returns `Ok` with exactly the value the native
`os_signpost_id_make_with_pointer` call produces — the `InvalidScope`
error path does not exist in the code, and a system-scoped logger yields
`Ok` of the native invalid-id sentinel instead of an error. -/
theorem C1_from_pointer_always_ok (scope : MatchingScope) (slide : Nat)
    (log : OsLog) (addr : Nat) :
    (SignpostId.from_pointer scope slide log addr).1
        = Except.ok { val := nativeMakeWithPointer scope slide addr } ∧
      ∀ err : SignpostError,
        (SignpostId.from_pointer scope slide log addr).1 ≠ Except.error err := by
  refine ⟨rfl, fun err h => ?_⟩
  simp [SignpostId.from_pointer] at h

/-- C2: a guard created while the logger is enabled and destroyed while
it is still enabled produces exactly one `IntervalBegin` followed by
exactly one `IntervalEnd`, both with the guard's id and name, and the
end emission carries no message even when the begin emission had one. -/
theorem C2_interval_enabled_lifecycle (env : Env) (log : OsLog) (id : Nat)
    (name : String) (message : Option String)
    (h : env.signpostEnabled = true) :
    emissionsOf (intervalScenario env env log id name message) =
      [{ id := id, name := name, message := message,
         kind := SignpostType.intervalBegin },
       { id := id, name := name, message := none,
         kind := SignpostType.intervalEnd }] := by
  cases hl : log.handleInit <;>
    simp [intervalScenario, SignpostInterval.new, SignpostInterval.drop,
      OsLog.emit, OsLog.enabledRun, OsLog.get, emissionsOf, h, hl]

/-- C2 witness: the enabled lifecycle at a concrete logger, id, name and
begin message. -/
theorem C2_interval_enabled_lifecycle_witness :
    emissionsOf (intervalScenario { signpostEnabled := true }
        { signpostEnabled := true } (OsLog.new "app" "cat") 7 "work"
        (some "begin-msg")) =
      [{ id := 7, name := "work", message := some "begin-msg",
         kind := SignpostType.intervalBegin },
       { id := 7, name := "work", message := none,
         kind := SignpostType.intervalEnd }] :=
  C2_interval_enabled_lifecycle { signpostEnabled := true }
    (OsLog.new "app" "cat") 7 "work" (some "begin-msg") rfl

/-- C3: starting from the unconfigured process state, the first
`configure` succeeds and stores its pair; a second `configure` panics
with "Signpost already configured" and leaves the stored state
untouched, and `global_logger` afterwards still yields the logger built
from the first call's subsystem and category. -/
theorem C3_configure_twice (s₁ c₁ s₂ c₂ : String) :
    (configure GlobalState.initial s₁ c₁).1 = PanicOr.ok (s₁, c₁) ∧
      (configure (configure GlobalState.initial s₁ c₁).2 s₂ c₂).1
        = PanicOr.panicked "Signpost already configured" ∧
      (configure (configure GlobalState.initial s₁ c₁).2 s₂ c₂).2
        = (configure GlobalState.initial s₁ c₁).2 ∧
      (global_logger
          (configure (configure GlobalState.initial s₁ c₁).2 s₂ c₂).2).1
        = PanicOr.ok (OsLog.new s₁ c₁) :=
  ⟨rfl, rfl, rfl, rfl⟩

/-- C4, counterexample: with the external facility disabled and the log
handle already created, `emit` still issues a native call — the
`os_signpost_enabled` query — so its native-call trace is not empty,
refuting "no native call occurs". -/
theorem C4_emit_disabled_native_call_counterexample :
    (OsLog.emit { signpostEnabled := false }
        { subsystem := "s", category := "c", handleInit := true }
        1 "n" none SignpostType.event).calls
      = [NativeCall.osSignpostEnabled] ∧
    (OsLog.emit { signpostEnabled := false }
        { subsystem := "s", category := "c", handleInit := true }
        1 "n" none SignpostType.event).calls ≠ [] := by
  constructor
  · rfl
  · decide

/-- C4, amended: when the logger is not enabled, `OsLog::emit` performs
no native emission call and, once the log handle has been lazily
created, no allocation; the enabled check itself still reaches the
native layer — one `os_signpost_enabled` call, preceded on first use by
the one-time `os_log_create` call with one string allocation. -/
theorem C4_emit_disabled_no_emission (env : Env) (log : OsLog) (id : Nat)
    (name : String) (message : Option String) (ty : SignpostType)
    (h : env.signpostEnabled = false) :
    emissionsOf (OsLog.emit env log id name message ty).calls = [] ∧
      (OsLog.emit env log id name message ty).allocs
        = (if log.handleInit then 0 else 1) ∧
      (OsLog.emit env log id name message ty).calls
        = (if log.handleInit then [NativeCall.osSignpostEnabled]
           else [NativeCall.osLogCreate log.subsystem log.category,
                 NativeCall.osSignpostEnabled]) := by
  cases hl : log.handleInit <;>
    simp [OsLog.emit, OsLog.enabledRun, OsLog.get, emissionsOf, h, hl]

/-- C4 witness: the amended statement at a concrete disabled logger. -/
theorem C4_emit_disabled_no_emission_witness :
    emissionsOf (OsLog.emit { signpostEnabled := false }
        { subsystem := "s", category := "c", handleInit := true }
        1 "n" (some "m") SignpostType.event).calls = [] ∧
      (OsLog.emit { signpostEnabled := false }
        { subsystem := "s", category := "c", handleInit := true }
        1 "n" (some "m") SignpostType.event).allocs
        = (if ({ subsystem := "s", category := "c",
                 handleInit := true } : OsLog).handleInit then 0 else 1) ∧
      (OsLog.emit { signpostEnabled := false }
        { subsystem := "s", category := "c", handleInit := true }
        1 "n" (some "m") SignpostType.event).calls
        = (if ({ subsystem := "s", category := "c",
                 handleInit := true } : OsLog).handleInit
           then [NativeCall.osSignpostEnabled]
           else [NativeCall.osLogCreate "s" "c",
                 NativeCall.osSignpostEnabled]) :=
  C4_emit_disabled_no_emission { signpostEnabled := false }
    { subsystem := "s", category := "c", handleInit := true }
    1 "n" (some "m") SignpostType.event rfl

/-- C5: a guard created while the logger is disabled and destroyed while
it is still disabled causes zero native emissions — the begin is skipped
at construction, and the end attempted by the destructor dies on the
emission primitive's enabled check. -/
theorem C5_interval_disabled_no_emissions (envNew envDrop : Env)
    (log : OsLog) (id : Nat) (name : String) (message : Option String)
    (h₁ : envNew.signpostEnabled = false)
    (h₂ : envDrop.signpostEnabled = false) :
    emissionsOf (intervalScenario envNew envDrop log id name message) = [] := by
  cases hl : log.handleInit <;>
    simp [intervalScenario, SignpostInterval.new, SignpostInterval.drop,
      OsLog.emit, OsLog.enabledRun, OsLog.get, emissionsOf, h₁, h₂, hl]

/-- C5 witness: the disabled lifecycle at a concrete logger, id, name
and begin message. -/
theorem C5_interval_disabled_no_emissions_witness :
    emissionsOf (intervalScenario { signpostEnabled := false }
      { signpostEnabled := false } (OsLog.new "app" "cat") 7 "work"
      (some "begin-msg")) = [] :=
  C5_interval_disabled_no_emissions { signpostEnabled := false }
    { signpostEnabled := false } (OsLog.new "app" "cat") 7 "work"
    (some "begin-msg") rfl rfl

/-- C6: accessing the global logger before any `configure` call panics —
but with the message "Double Signpost config initialization", the
double-configuration message, not one describing use before
configuration; after a successful `configure`, `global_logger` succeeds
with the logger built from the stored pair. -/
theorem C6_global_logger_unconfigured_panics :
    (global_logger GlobalState.initial).1
        = PanicOr.panicked "Double Signpost config initialization" ∧
      ∀ s c : String,
        (global_logger (configure GlobalState.initial s c).2).1
          = PanicOr.ok (OsLog.new s c) :=
  ⟨rfl, fun _ _ => rfl⟩

/-- C7: closing an external span whose id has no entry in the interval
map produces no emission, and the map is left as it was — a benign
no-op, whether or not the logger is enabled. -/
theorem C7_on_close_missing_entry (env : Env) (log : OsLog)
    (m : List (Nat × ActiveInterval)) (spanId : Nat)
    (h : ∀ p ∈ m, p.1 ≠ spanId) :
    emissionsOf (TracingSubscriber.on_close env log m spanId).2.calls = [] ∧
      (TracingSubscriber.on_close env log m spanId).1 = m := by
  cases he : env.signpostEnabled <;> cases hl : log.handleInit <;>
    simp [TracingSubscriber.on_close, OsLog.enabledRun, OsLog.get,
      emissionsOf, removeEntry_of_not_mem m spanId h, he, hl]

/-- C7 witness: closing span id 2 against a map holding only span id 1
emits nothing and leaves the map unchanged. -/
theorem C7_on_close_missing_entry_witness :
    emissionsOf (TracingSubscriber.on_close { signpostEnabled := true }
        (OsLog.new "app" "cat") [(1, { id := 5, name := "sp" })] 2).2.calls
        = [] ∧
      (TracingSubscriber.on_close { signpostEnabled := true }
        (OsLog.new "app" "cat") [(1, { id := 5, name := "sp" })] 2).1
        = [(1, { id := 5, name := "sp" })] :=
  C7_on_close_missing_entry { signpostEnabled := true } (OsLog.new "app" "cat")
    [(1, { id := 5, name := "sp" })] 2 (by decide)

/-- C8: for every non-reserved 64-bit value (neither all-zero nor
all-ones), constructing a `SignpostId` from the raw value and reading it
back round-trips. -/
theorem C8_from_raw_roundtrip (x : Nat) (_hlt : x < 2 ^ 64) (_h0 : x ≠ 0)
    (_h1 : x ≠ 2 ^ 64 - 1) : (SignpostId.from_raw x).raw = x :=
  rfl

/-- C8 witness: the round-trip at the non-reserved value 42. -/
theorem C8_from_raw_roundtrip_witness :
    (SignpostId.from_raw 42).raw = 42 :=
  C8_from_raw_roundtrip 42 (by decide)
    (by decide) (by decide)

/-- C9: a guard created while the logger is disabled but destroyed while
it is enabled produces exactly one `IntervalEnd` emission and no
`IntervalBegin` — the destructor's unconditional end attempt is gated
only by the enabled state at destruction time, so an unmatched end
reaches the native layer. -/
theorem C9_interval_disabled_then_enabled (envNew envDrop : Env)
    (log : OsLog) (id : Nat) (name : String) (message : Option String)
    (h₁ : envNew.signpostEnabled = false)
    (h₂ : envDrop.signpostEnabled = true) :
    emissionsOf (intervalScenario envNew envDrop log id name message) =
      [{ id := id, name := name, message := none,
         kind := SignpostType.intervalEnd }] := by
  cases hl : log.handleInit <;>
    simp [intervalScenario, SignpostInterval.new, SignpostInterval.drop,
      OsLog.emit, OsLog.enabledRun, OsLog.get, emissionsOf, h₁, h₂, hl]

/-- C9 witness: disabled at construction, enabled at destruction, at a
concrete logger, id, name and begin message. -/
theorem C9_interval_disabled_then_enabled_witness :
    emissionsOf (intervalScenario { signpostEnabled := false }
        { signpostEnabled := true } (OsLog.new "app" "cat") 7 "work"
        (some "begin-msg")) =
      [{ id := 7, name := "work", message := none,
         kind := SignpostType.intervalEnd }] :=
  C9_interval_disabled_then_enabled { signpostEnabled := false }
    { signpostEnabled := true } (OsLog.new "app" "cat") 7 "work"
    (some "begin-msg") rfl rfl

/-- C10: raw-value construction performs no validation and never fails —
`from_raw` applied to the reserved sentinels 0 and all-ones succeeds,
returning ids whose raw values are 0 and all-ones respectively. -/
theorem C10_from_raw_unchecked :
    (SignpostId.from_raw 0).raw = 0 ∧
      (SignpostId.from_raw (2 ^ 64 - 1)).raw = 2 ^ 64 - 1 ∧
      (SignpostId.from_raw osSignpostIdInvalid).raw = osSignpostIdInvalid :=
  ⟨rfl, rfl, rfl⟩

end Signpost
